import Mathlib

/-!
# A shallow embedding of the DDP client session engine

This development embeds the client of a DDP (distributed data protocol)
session engine, written in Go, into Lean 4.  The embedded functions follow
the Go source (`ddp_stats.go`) line by line:

* `Client` mirrors the `Client` struct.  Go maps become association lists
  (`lookupA` / `insertA` / `eraseA` mirror map read, write and `delete`).
* Effects are made explicit: messages written to the websocket are appended
  to `Client.sent`; a ping handler invocation `handler(err)` is recorded in
  `Client.pingLog` as the pair of the handler's identity and the `error`
  argument (`none` = success / `nil`); signalling a `Call`'s done channel
  (`call.done()`) appends the call value to `Client.doneLog`.
* Go `*pingTracker` pointers are references into a heap `trackerHeap`,
  so that aliasing between the `pings` map and popped slices is preserved
  exactly as in the source.
* `panic` / `log.Panic` and the nil-pointer dereference in `Close`
  (calling `Stop` on a nil `*time.Timer`) are modelled by `Except.error`
  and `Option.none` respectively.
* Timer callbacks (`time.AfterFunc`) are modelled as explicit transitions
  (`pingTimerFire`) that may run while the tracker's timer has not been
  stopped.
-/

namespace DDP

/-- Opaque JSON-ish values carried in message fields and argument lists.
The dispatcher only ever distinguishes strings from non-strings
(type switches / assertions in the Go source), so that is all we model. -/
inductive Val where
  | str (s : String)
  | num (n : Int)
  | other
deriving DecidableEq, Repr

/-- An inbound DDP message, the free-form `map[string]interface{}` the
dispatcher consumes, restricted to the fields the dispatcher reads.
`none` models an absent key.  Fields that the source reads through a
`.(string)` type assertion (`id`, `error`, `session`, the elements of
`subs`) are typed as strings here; the `collection` and `server_id`
fields, whose string-ness the source tests with a type switch, stay
`Val`. -/
structure DdpMsg where
  msg : Option String := none
  id : Option String := none
  error : Option String := none
  result : Option Val := none
  session : Option String := none
  subs : List String := []
  collection : Option Val := none
  server_id : Option Val := none
deriving DecidableEq, Repr

/-- Modelled from the spec: the outbound wire messages the client emits
(`NewConnect`, `NewReconnect`, `NewMethod`, `NewSub`, `NewPing`, `NewPong`
are constructors defined in a repository file not under src/; the spec
enumerates the emitted message shapes in its wire-protocol section). -/
inductive OutMsg where
  | connect
  | reconnect (session : String)
  | method (id serviceMethod : String) (args : List Val)
  | sub (id name : String) (args : List Val)
  | ping (id : String)
  | pong (id : String)
deriving DecidableEq, Repr

/-- Modelled from the spec: the `Call` struct (defined in a repository file
not under src/) represents one method invocation or subscription: an id,
the service method name, the ordered args, the reply / error produced by
completion, and a single-shot buffered completion sink.  `Done` records
the capacity of the done channel attached to the call. -/
structure Call where
  ID : String := ""
  ServiceMethod : String := ""
  Args : List Val := []
  Reply : Option Val := none
  Error : Option String := none
  Done : Nat := 0
deriving DecidableEq, Repr

/-- Modelled from the spec: one outstanding liveness probe (`pingTracker`,
defined in a repository file not under src/): a handler (identified here
by a caller-chosen tag, since Go closures have no value equality), the
timeout it was enrolled with, and its timer's state.  `timerStopped` is
true once the timer has been stopped (pong arrived) or has fired. -/
structure PingTracker where
  handler : Nat := 0
  timeout : Nat := 0
  timerStopped : Bool := false
deriving DecidableEq, Repr

/-- The heartbeat timer (`pingTimer *time.Timer`): `stopped` records
whether `Stop` has been called on it. -/
structure HTimer where
  stopped : Bool := false
deriving DecidableEq, Repr

/-- Modelled from the spec: a `Collection` (interface defined in a
repository file not under src/) receives the data-delta capability calls
`{Added, Changed, Removed, AddedBefore, MovedBefore}` — recorded here as
`events`, pairs of capability name and message — and `Reset`, which
discards replicated state (recorded by the `resets` counter).
`NewCollection name` starts with no events and no resets. -/
structure Collection where
  events : List (String × DdpMsg) := []
  resets : Nat := 0
deriving DecidableEq, Repr

/-- `NewCollection` (repository file not under src/): a fresh, empty
collection registered under a name. -/
def NewCollection (_name : String) : Collection := {}

/-- Association-list read, mirroring a Go map lookup `v, ok := m[k]`. -/
def lookupA {α : Type} (m : List (String × α)) (k : String) : Option α :=
  match m with
  | [] => none
  | (k₁, v) :: rest => if k₁ = k then some v else lookupA rest k

/-- Association-list write, mirroring a Go map assignment `m[k] = v`
(keys stay unique: replace if present, append otherwise). -/
def insertA {α : Type} (m : List (String × α)) (k : String) (v : α) :
    List (String × α) :=
  match m with
  | [] => [(k, v)]
  | (k₁, v₁) :: rest =>
      if k₁ = k then (k, v) :: rest else (k₁, v₁) :: insertA rest k v

/-- Association-list removal, mirroring Go `delete(m, k)`. -/
def eraseA {α : Type} (m : List (String × α)) (k : String) :
    List (String × α) :=
  match m with
  | [] => []
  | (k₁, v₁) :: rest =>
      if k₁ = k then rest else (k₁, v₁) :: eraseA rest k

/-- In-place mutation of the value stored at a key (mirrors calling a
mutating method on the object a Go map holds at `k`). -/
def mapAtA {α : Type} (m : List (String × α)) (k : String) (f : α → α) :
    List (String × α) :=
  match m with
  | [] => []
  | (k₁, v₁) :: rest =>
      if k₁ = k then (k₁, f v₁) :: rest else (k₁, v₁) :: mapAtA rest k f

/-- In-place mutation of a heap cell (mirrors mutating through a Go
pointer); out-of-range references leave the heap unchanged. -/
def updateAt {α : Type} (l : List α) (n : Nat) (f : α → α) : List α :=
  match l, n with
  | [], _ => []
  | x :: xs, 0 => f x :: xs
  | x :: xs, Nat.succ m => x :: updateAt xs m f

/-- The `Client` struct of the source, with the effect logs described in
the module docstring.  `ws` is the websocket handle (`none` = nil);
`trackerHeap` is the heap of `pingTracker` objects and `pings` maps each
ping id to the list of heap references the Go slice holds. -/
structure Client where
  reconnects : Nat := 0
  session : String := ""
  version : String := ""
  serverID : String := ""
  ws : Option Nat := none
  pingTimer : Option HTimer := none
  trackerHeap : List PingTracker := []
  pings : List (String × List Nat) := []
  calls : List (String × Call) := []
  subs : List (String × Call) := []
  collections : List (String × Collection) := []
  idCounter : Nat := 0
  fatal : Bool := false
  sent : List OutMsg := []
  pingLog : List (Nat × Option String) := []
  doneLog : List Call := []
deriving DecidableEq, Repr

/-- Modelled from the spec: the IdMinter (`idManager`, defined in a
repository file not under src/) mints identifiers unique within the
session; a monotonic counter rendered as a string satisfies the contract. -/
def newID (c : Client) : String × Client :=
  (toString c.idCounter, { c with idCounter := c.idCounter + 1 })

/-- `Client.Send`: returns an error on a nil socket, otherwise writes the
JSON message to the websocket (modelled by appending to `sent`). -/
def Send (c : Client) (msg : OutMsg) : Except String Client :=
  match c.ws with
  | none => Except.error "Tried to send message on a nil socket"
  | some _ => Except.ok { c with sent := c.sent ++ [msg] }

/-- A `c.Send(...)` call whose returned error the source discards
(the dispatcher, `Go`, `Subscribe`, `start` and `Reconnect` all do this). -/
def sendDrop (c : Client) (msg : OutMsg) : Client :=
  match Send c msg with
  | Except.ok c₁ => c₁
  | Except.error _ => c

/-- The handler tag stored in the tracker a heap reference points to. -/
def handlerOf (c : Client) (ref : Nat) : Nat :=
  match c.trackerHeap.get? ref with
  | some t => t.handler
  | none => 0

/-- `Client.PingPong`: sends a ping; if the send fails the handler is
invoked with the error and nothing is enrolled; otherwise a tracker with
a running `time.AfterFunc` timer is appended to the bucket at `id`.
The handler is identified by the tag `h`. -/
def PingPong (c : Client) (id : String) (timeout : Nat) (h : Nat) : Client :=
  match Send c (OutMsg.ping id) with
  | Except.error e => { c with pingLog := c.pingLog ++ [(h, some e)] }
  | Except.ok c₁ =>
      let pings := (lookupA c₁.pings id).getD []
      let ref := c₁.trackerHeap.length
      let tracker : PingTracker :=
        { handler := h, timeout := timeout, timerStopped := false }
      { c₁ with
          trackerHeap := c₁.trackerHeap ++ [tracker]
          pings := insertA c₁.pings id (pings ++ [ref]) }

/-- The body of the `time.AfterFunc` closure built in `PingPong`: when the
tracker's timer fires it invokes `handler(fmt.Errorf("ping timeout"))` —
and does nothing else (in particular it does not touch `c.pings`).
Firing consumes the timer. -/
def pingTimerFire (c : Client) (ref : Nat) : Client :=
  { c with
      pingLog := c.pingLog ++ [(handlerOf c ref, some "ping timeout")]
      trackerHeap := updateAt c.trackerHeap ref
        (fun t => { t with timerStopped := true }) }

/-- `ping.timer.Stop()` through the heap reference. -/
def stopTracker (c : Client) (ref : Nat) : Client :=
  { c with
      trackerHeap := updateAt c.trackerHeap ref
        (fun t => { t with timerStopped := true }) }

/-- `call.done()` (repository file not under src/, modelled from the spec:
the single-shot completion sink is signalled with the call value, which
carries the reply or the error). -/
def doneSignal (c : Client) (call : Call) : Client :=
  { c with doneLog := c.doneLog ++ [call] }

/-- `Client.Close`: stops the heartbeat timer and nils out the websocket
after closing it.  `c.pingTimer.Stop()` on a nil `*time.Timer` is a
nil-pointer dereference, modelled by `none`. -/
def Close (c : Client) : Option Client :=
  match c.pingTimer with
  | none => none
  | some t =>
      let c₁ := { c with pingTimer := some { t with stopped := true } }
      some (match c₁.ws with
            | some _ => { c₁ with ws := none }
            | none => c₁)

/-- `Client.start`: installs the websocket, spawns the inbox worker
(not modelled — it only feeds the inbox) and sends the connect message,
discarding the send error as the source does. -/
def start (c : Client) (ws : Nat) (connMsg : OutMsg) : Client :=
  sendDrop { c with ws := some ws } connMsg

/-- `Client.Subscribe`: mints an id, panics (`log.Panic`) if a non-nil
unbuffered done channel is supplied, allocates a 10-buffered channel when
`done` is nil, registers the call in `subs`, and sends the `sub` message.
`done` is the capacity of the caller's channel (`none` = nil channel).
The source also copies `args` into an unused local `subArgs`; a value
copy with no observable effect. -/
def Subscribe (c : Client) (subName : String) (args : List Val)
    (done : Option Nat) : Except String (Client × Call) :=
  let (id, c₁) := newID c
  match done with
  | some 0 => Except.error "ddp.rpc: done channel is unbuffered"
  | _ =>
      let call : Call :=
        { ID := id, ServiceMethod := subName, Args := args,
          Done := done.getD 10 }
      let c₂ := { c₁ with subs := insertA c₁.subs id call }
      Except.ok (sendDrop c₂ (OutMsg.sub id subName args), call)

/-- `Client.Go`: the asynchronous method invocation; same structure as
`Subscribe` but registering in `calls` and sending a `method` message. -/
def Go (c : Client) (serviceMethod : String) (args : List Val)
    (done : Option Nat) : Except String (Client × Call) :=
  let (id, c₁) := newID c
  match done with
  | some 0 => Except.error "ddp.rpc: done channel is unbuffered"
  | _ =>
      let call : Call :=
        { ID := id, ServiceMethod := serviceMethod, Args := args,
          Done := done.getD 10 }
      let c₂ := { c₁ with calls := insertA c₁.calls id call }
      Except.ok (sendDrop c₂ (OutMsg.method id serviceMethod args), call)

/-- `Client.CollectionByName`: retrieves a collection, creating and
registering a fresh one when the name is not yet present. -/
def CollectionByName (c : Client) (name : String) : Client × Collection :=
  match lookupA c.collections name with
  | some collection => (c, collection)
  | none =>
      let collection := NewCollection name
      ({ c with collections := insertA c.collections name collection },
       collection)

/-- Where `collectionBy` delivers an event: either the directory entry at
a name, or a fresh `NewMockCollection` (a no-op sink that is stored
nowhere). -/
inductive CollRef where
  | dir (name : String)
  | mock
deriving DecidableEq, Repr

/-- `Client.collectionBy`: a missing or non-string `collection` field
yields a mock; a string field goes through `CollectionByName` (which may
create and register a collection). -/
def collectionBy (c : Client) (m : DdpMsg) : Client × CollRef :=
  match m.collection with
  | none => (c, CollRef.mock)
  | some v =>
      match v with
      | Val.str name => ((CollectionByName c name).1, CollRef.dir name)
      | _ => (c, CollRef.mock)

/-- Invoking the data-delta capability named `cap` on the collection a
`CollRef` designates: a mock drops the event (modelled from the spec:
`NewMockCollection` is a no-op sink); a directory entry records it. -/
def deliverTo (c : Client) (ref : CollRef) (cap : String) (m : DdpMsg) :
    Client :=
  match ref with
  | CollRef.mock => c
  | CollRef.dir name =>
      let record := fun (col : Collection) =>
        { col with events := col.events ++ [(cap, m)] }
      { c with collections := mapAtA c.collections name record }

/-- One data-delta case of the dispatcher: `c.collectionBy(msg).Cap(msg)`. -/
def deliverDelta (c : Client) (cap : String) (m : DdpMsg) : Client :=
  let (c₁, ref) := collectionBy c m
  deliverTo c₁ ref cap m

/-- The `"pong"` case of the dispatcher, verbatim from the source: the key
is the `id` field or `""`; if the bucket is non-empty, pop its head, write
the popped slice back only when the key is empty or the remainder is
non-empty, stop the popped tracker's timer and invoke its handler with
nil. -/
def processPong (c : Client) (mid : Option String) : Client :=
  let key := mid.getD ""
  match lookupA c.pings key with
  | some (ref :: rest) =>
      let c₁ :=
        if key.length = 0 || rest.length > 0 then
          { c with pings := insertA c.pings key rest }
        else c
      let c₂ := stopTracker c₁ ref
      { c₂ with pingLog := c₂.pingLog ++ [(handlerOf c₂ ref, none)] }
  | _ => c

/-- The call as completed by the `"result"` case: the message's `error`
field wins when present, otherwise `Reply` receives the `result` field
(which may be absent, i.e. nil). -/
def completeCall (call : Call) (m : DdpMsg) : Call :=
  match m.error with
  | some e => { call with Error := some e }
  | none => { call with Reply := m.result }

/-- The `"result"` case of the dispatcher: on a registered id, remove the
call from the registry, fill in its error or reply, and signal done; an
absent or unknown id is a no-op. -/
def processResult (c : Client) (m : DdpMsg) : Client :=
  match m.id with
  | none => c
  | some i =>
      match lookupA c.calls i with
      | none => c
      | some call =>
          doneSignal { c with calls := eraseA c.calls i } (completeCall call m)

/-- One iteration of `Client.inboxManager` on an inbox message: the
dispatcher's switch on the `msg` discriminator, translated case by case
from the source.  Log-only cases are the identity. -/
def inboxStep (c : Client) (m : DdpMsg) : Client :=
  match m.msg with
  | some mtype =>
      match mtype with
      | "connected" =>
          { c with
              version := "1"
              session := m.session.getD ""
              pingTimer := some { stopped := false } }
      | "failed" => { c with fatal := true }
      | "ping" =>
          match m.id with
          | some i => sendDrop c (OutMsg.pong i)
          | none => sendDrop c (OutMsg.pong "")
      | "pong" => processPong c m.id
      | "nosub" =>
          match m.id with
          | some i => { c with subs := eraseA c.subs i }
          | none => c
      | "ready" =>
          m.subs.foldl
            (fun acc sid =>
              match lookupA acc.subs sid with
              | some call => doneSignal acc call
              | none => acc) c
      | "added" => deliverDelta c "added" m
      | "changed" => deliverDelta c "changed" m
      | "removed" => deliverDelta c "removed" m
      | "addedBefore" => deliverDelta c "addedBefore" m
      | "movedBefore" => deliverDelta c "movedBefore" m
      | "result" => processResult c m
      | "updated" => c
      | _ => c
  | none =>
      match m.server_id with
      | some (Val.str s) => { c with serverID := s }
      | _ => c

/-- `Client.Reconnect`: close (which dereferences the heartbeat timer),
bump the reconnect counter, dial (`dial = none` models a dial failure, in
which case a retry timer is scheduled and nothing else happens), then
start on the new socket with a resume message, resend every in-flight
call and every subscription, and reset every collection. -/
def Reconnect (c : Client) (dial : Option Nat) : Option Client :=
  match Close c with
  | none => none
  | some c₀ =>
      let c₁ := { c₀ with reconnects := c₀.reconnects + 1 }
      match dial with
      | none => some c₁
      | some ws =>
          let c₂ := start c₁ ws (OutMsg.reconnect c₁.session)
          let c₃ := c₂.calls.foldl
            (fun acc p =>
              sendDrop acc (OutMsg.method p.2.ID p.2.ServiceMethod p.2.Args))
            c₂
          let c₄ := c₃.subs.foldl
            (fun acc p =>
              sendDrop acc (OutMsg.sub p.2.ID p.2.ServiceMethod p.2.Args))
            c₃
          some { c₄ with
                   collections := c₄.collections.map
                     (fun p => (p.1, { p.2 with resets := p.2.resets + 1 })) }

/-! ### Concrete states used to evaluate the model -/

/-- A freshly connected client: live socket, running heartbeat timer. -/
def liveClient : Client := { ws := some 0, pingTimer := some { stopped := false } }

/-- `liveClient` after `Subscribe("stream", [], make(chan *Call, 1))`
registered subscription id "0" (the synchronous `Sub` path). -/
def nosubClient : Client :=
  match Subscribe liveClient "stream" [] (some 1) with
  | Except.ok (c, _) => c
  | Except.error _ => liveClient

/-- The server's denial: `{msg:"nosub", id:"0", error:"denied"}`. -/
def nosubMsg : DdpMsg :=
  { msg := some "nosub", id := some "0", error := some "denied" }

/-- `liveClient` after `PingPong("a", timeout, handler)` with handler tag 7:
one tracker (heap cell 0) in the bucket at "a". -/
def pingClient : Client := PingPong liveClient "a" 15 7

/-- The pong `{msg:"pong", id:"a"}`. -/
def pongA : DdpMsg := { msg := some "pong", id := some "a" }

/-- Three anonymous pings (handler tags 0, 1, 2) enrolled in order. -/
def anonPingClient : Client :=
  PingPong (PingPong (PingPong liveClient "" 15 0) "" 15 1) "" 15 2

/-- An anonymous pong `{msg:"pong"}`. -/
def anonPong : DdpMsg := { msg := some "pong" }

/-- `anonPingClient` after three anonymous pongs have been dispatched. -/
def anonAfter : Client :=
  inboxStep (inboxStep (inboxStep anonPingClient anonPong) anonPong) anonPong

/-- An in-flight `echo` call with id "1". -/
def callEcho : Call :=
  { ID := "1", ServiceMethod := "echo", Args := [Val.str "x"], Done := 1 }

/-- A client with `callEcho` outstanding in the call registry. -/
def resClient : Client := { liveClient with calls := [("1", callEcho)] }

/-- The reply `{msg:"result", id:"1", result:"x"}`. -/
def resMsg : DdpMsg :=
  { msg := some "result", id := some "1", result := some (Val.str "x") }

/-- A data-delta event for a collection name absent from the directory:
`{msg:"added", collection:"c", ...}`. -/
def addedMsg : DdpMsg := { msg := some "added", collection := some (Val.str "c") }

/-- A data-delta event with no `collection` field at all. -/
def noCollMsg : DdpMsg := { msg := some "changed" }

/-- A client about to reconnect: one outstanding call, one active
subscription, one collection, live socket and heartbeat timer. -/
def reconClient : Client :=
  { liveClient with
      session := "tok"
      calls := [("1", callEcho)]
      subs := [("s1", { ID := "s1", ServiceMethod := "stream", Done := 1 })]
      collections := [("c", { events := [("added", addedMsg)], resets := 0 })] }

/-! ### Helper lemmas -/

theorem lookupA_insertA {α : Type} (m : List (String × α)) (k : String) (v : α) :
    lookupA (insertA m k v) k = some v := by
  induction m with
  | nil => simp [insertA, lookupA]
  | cons p rest ih =>
      obtain ⟨k₁, v₁⟩ := p
      by_cases h : k₁ = k <;> simp [insertA, lookupA, h, ih]

theorem lookupA_mapAtA {α : Type} (m : List (String × α)) (k : String)
    (f : α → α) :
    lookupA (mapAtA m k f) k = (lookupA m k).map f := by
  induction m with
  | nil => simp [mapAtA, lookupA]
  | cons p rest ih =>
      obtain ⟨k₁, v₁⟩ := p
      by_cases h : k₁ = k <;> simp [mapAtA, lookupA, h, ih]

theorem sendDrop_some (c : Client) (m : OutMsg) (w : Nat) (h : c.ws = some w) :
    sendDrop c m = { c with sent := c.sent ++ [m] } := by
  simp [sendDrop, Send, h]

theorem sendDrop_none (c : Client) (m : OutMsg) (h : c.ws = none) :
    sendDrop c m = c := by
  simp [sendDrop, Send, h]

theorem inboxStep_result (c : Client) (m : DdpMsg) (hm : m.msg = some "result") :
    inboxStep c m = processResult c m := by
  unfold inboxStep
  rw [hm]
  rfl

theorem close_eq (c : Client) (t : HTimer) (h : c.pingTimer = some t) :
    Close c =
      some { c with pingTimer := some { t with stopped := true }, ws := none } := by
  obtain ⟨rec, ses, ver, sid, ws, pt, th, pg, cl, sb, co, idc, ft, st, pl, dl⟩ := c
  dsimp only at h ⊢
  subst h
  cases ws <;> rfl

/-! ### Claim theorems -/

/-- C4: dispatching a `result` message with a registered id removes the
call from the registry and signals its completion sink exactly once —
with the message's `error` when present, else with the `result` value —
and an unregistered or absent id makes the dispatch a no-op. -/
theorem result_completion (c : Client) (m : DdpMsg) (hm : m.msg = some "result") :
    (∀ i call, m.id = some i → lookupA c.calls i = some call →
        inboxStep c m =
          { c with calls := eraseA c.calls i,
                   doneLog := c.doneLog ++ [completeCall call m] }) ∧
    (∀ i, m.id = some i → lookupA c.calls i = none → inboxStep c m = c) ∧
    (m.id = none → inboxStep c m = c) ∧
    (∀ call e, m.error = some e →
        completeCall call m = { call with Error := some e }) ∧
    (∀ call, m.error = none →
        completeCall call m = { call with Reply := m.result }) := by
  rw [inboxStep_result c m hm]
  refine ⟨?_, ?_, ?_, ?_, ?_⟩
  · intro i call hi hcall
    unfold processResult
    simp only [hi, hcall]
    rfl
  · intro i hi hnone
    unfold processResult
    simp only [hi, hnone]
  · intro hnone
    unfold processResult
    simp only [hnone]
  · intro call e he
    unfold completeCall
    rw [he]
  · intro call he
    unfold completeCall
    rw [he]

/-- Witness for `result_completion`: the happy-path reply
`{msg:"result", id:"1", result:"x"}` against the client holding the
`echo` call. -/
theorem result_completion_witness :
    resMsg.msg = some "result" ∧
    inboxStep resClient resMsg =
      { resClient with
          calls := eraseA resClient.calls "1"
          doneLog := resClient.doneLog ++ [completeCall callEcho resMsg] } :=
  ⟨rfl, (result_completion resClient resMsg rfl).1 "1" callEcho rfl rfl⟩

/-- C7: on a session whose heartbeat timer exists, `Close` stops the
timer and nils out the transport, and a second `Close` on the resulting
state (timer already stopped, transport already nil) succeeds and leaves
the state unchanged. -/
theorem close_idempotent (c : Client) (t : HTimer) (h : c.pingTimer = some t) :
    ∃ c₁, Close c = some c₁ ∧ c₁.pingTimer = some { stopped := true } ∧
      c₁.ws = none ∧ Close c₁ = some c₁ :=
  ⟨_, close_eq c t h, rfl, rfl, rfl⟩

/-- Witness for `close_idempotent` at `liveClient`. -/
theorem close_idempotent_witness :
    liveClient.pingTimer = some { stopped := false } ∧
    ∃ c₁, Close liveClient = some c₁ ∧
      c₁.pingTimer = some { stopped := true } ∧
      c₁.ws = none ∧ Close c₁ = some c₁ :=
  ⟨rfl, close_idempotent liveClient { stopped := false } rfl⟩

theorem inboxStep_delta (c : Client) (m : DdpMsg) (cap : String)
    (hcap : cap = "added" ∨ cap = "changed" ∨ cap = "removed" ∨
      cap = "addedBefore" ∨ cap = "movedBefore")
    (hm : m.msg = some cap) :
    inboxStep c m = deliverDelta c cap m := by
  rcases hcap with h | h | h | h | h <;> subst h <;>
    (unfold inboxStep; rw [hm]; rfl)

/-- C9 (counterexample): dispatching `{msg:"added", collection:"c"}` on a
client whose directory does not contain "c" does NOT leave the
CollectionDirectory unchanged — a fresh collection is created, registered
under "c", and receives the event. -/
theorem delta_miss_mutates_directory :
    liveClient.collections = [] ∧
    (inboxStep liveClient addedMsg).collections =
      [("c", { events := [("added", addedMsg)], resets := 0 })] :=
  ⟨rfl, rfl⟩

/-- C9 (amended): on a data-delta event, only an absent or non-string
`collection` field is routed to a synthesized no-op sink and dropped with
the directory unchanged; a string `collection` field naming a collection
not in the directory causes a fresh collection to be created, registered
under that name, and handed the event. -/
theorem delta_lookup_miss (c : Client) (m : DdpMsg) (cap : String)
    (hcap : cap = "added" ∨ cap = "changed" ∨ cap = "removed" ∨
      cap = "addedBefore" ∨ cap = "movedBefore")
    (hm : m.msg = some cap) :
    (m.collection = none → inboxStep c m = c) ∧
    (∀ v, m.collection = some v → (∀ s, v ≠ Val.str s) → inboxStep c m = c) ∧
    (∀ name, m.collection = some (Val.str name) →
        lookupA c.collections name = none →
        lookupA (inboxStep c m).collections name =
          some { events := [(cap, m)], resets := 0 }) := by
  rw [inboxStep_delta c m cap hcap hm]
  refine ⟨?_, ?_, ?_⟩
  · intro hnone
    unfold deliverDelta collectionBy
    simp only [hnone]
    rfl
  · intro v hv hns
    unfold deliverDelta collectionBy
    simp only [hv]
    cases v with
    | str s => exact absurd rfl (hns s)
    | num n => rfl
    | other => rfl
  · intro name hname hmiss
    unfold deliverDelta collectionBy CollectionByName
    simp only [hname, hmiss]
    unfold deliverTo
    simp only [lookupA_mapAtA, lookupA_insertA]
    rfl

/-- Witness for `delta_lookup_miss`: a `changed` event with no
`collection` field is dropped and leaves the client unchanged. -/
theorem delta_lookup_miss_witness :
    noCollMsg.msg = some "changed" ∧ inboxStep liveClient noCollMsg = liveClient :=
  ⟨rfl, (delta_lookup_miss liveClient noCollMsg "changed"
    (Or.inr (Or.inl rfl)) rfl).1 rfl⟩

theorem foldSendGen {α : Type} (f : α → OutMsg) (l : List α) (c : Client)
    (w : Nat) (h : c.ws = some w) :
    List.foldl (fun acc x => sendDrop acc (f x)) c l =
      { c with sent := c.sent ++ l.map f } := by
  induction l generalizing c with
  | nil => simp
  | cons x xs ih =>
      rw [List.foldl_cons, sendDrop_some c (f x) w h,
        ih { c with sent := c.sent ++ [f x] } h]
      simp

theorem foldSendMethod (l : List (String × Call)) (c : Client) (w : Nat)
    (h : c.ws = some w) :
    List.foldl
      (fun acc p => sendDrop acc (OutMsg.method p.2.ID p.2.ServiceMethod p.2.Args))
      c l =
    { c with sent := c.sent ++
        l.map (fun p => OutMsg.method p.2.ID p.2.ServiceMethod p.2.Args) } :=
  foldSendGen (fun p => OutMsg.method p.2.ID p.2.ServiceMethod p.2.Args) l c w h

theorem foldSendSub (l : List (String × Call)) (c : Client) (w : Nat)
    (h : c.ws = some w) :
    List.foldl
      (fun acc p => sendDrop acc (OutMsg.sub p.2.ID p.2.ServiceMethod p.2.Args))
      c l =
    { c with sent := c.sent ++
        l.map (fun p => OutMsg.sub p.2.ID p.2.ServiceMethod p.2.Args) } :=
  foldSendGen (fun p => OutMsg.sub p.2.ID p.2.ServiceMethod p.2.Args) l c w h

/-- C5: when `Reconnect` succeeds in dialing (`some w`), it retransmits a
`method` message for every Call in the registry with its original id,
method and args, a `sub` message for every Subscription with its original
id, name and args, resets every collection, and leaves the call and
subscription registries exactly as they were (hence the same id sets). -/
theorem reconnect_resends (c : Client) (t : HTimer) (w : Nat)
    (h : c.pingTimer = some t) :
    ∃ c₁, Reconnect c (some w) = some c₁ ∧
      c₁.calls = c.calls ∧ c₁.subs = c.subs ∧
      c₁.collections = c.collections.map
        (fun p => (p.1, { p.2 with resets := p.2.resets + 1 })) ∧
      c₁.sent = c.sent ++ [OutMsg.reconnect c.session] ++
        c.calls.map (fun p => OutMsg.method p.2.ID p.2.ServiceMethod p.2.Args) ++
        c.subs.map (fun p => OutMsg.sub p.2.ID p.2.ServiceMethod p.2.Args) ∧
      (∀ p ∈ c.calls, OutMsg.method p.2.ID p.2.ServiceMethod p.2.Args ∈ c₁.sent) ∧
      (∀ p ∈ c.subs, OutMsg.sub p.2.ID p.2.ServiceMethod p.2.Args ∈ c₁.sent) := by
  have key : Reconnect c (some w) = some
      { c with
          reconnects := c.reconnects + 1
          ws := some w
          pingTimer := some { t with stopped := true }
          sent := ((c.sent ++ [OutMsg.reconnect c.session]) ++
            c.calls.map (fun p => OutMsg.method p.2.ID p.2.ServiceMethod p.2.Args)) ++
            c.subs.map (fun p => OutMsg.sub p.2.ID p.2.ServiceMethod p.2.Args)
          collections := c.collections.map
            (fun p => (p.1, { p.2 with resets := p.2.resets + 1 })) } := by
    simp only [Reconnect, close_eq c t h, start]
    rw [sendDrop_some _ _ w rfl]
    dsimp only
    rw [foldSendMethod _ _ w rfl]
    dsimp only
    rw [foldSendSub _ _ w rfl]
  refine ⟨_, key, rfl, rfl, rfl, rfl, ?_, ?_⟩
  · intro p hp
    exact List.mem_append_left _
      (List.mem_append_right _ (List.mem_map_of_mem _ hp))
  · intro p hp
    exact List.mem_append_right _ (List.mem_map_of_mem _ hp)

/-- Witness for `reconnect_resends` at `reconClient` (one call, one sub,
one collection), dialing socket 5. -/
theorem reconnect_resends_witness :
    reconClient.pingTimer = some { stopped := false } ∧
    ∃ c₁, Reconnect reconClient (some 5) = some c₁ ∧
      c₁.calls = reconClient.calls ∧ c₁.subs = reconClient.subs ∧
      c₁.collections = reconClient.collections.map
        (fun p => (p.1, { p.2 with resets := p.2.resets + 1 })) ∧
      c₁.sent = reconClient.sent ++ [OutMsg.reconnect reconClient.session] ++
        reconClient.calls.map
          (fun p => OutMsg.method p.2.ID p.2.ServiceMethod p.2.Args) ++
        reconClient.subs.map
          (fun p => OutMsg.sub p.2.ID p.2.ServiceMethod p.2.Args) ∧
      (∀ p ∈ reconClient.calls,
        OutMsg.method p.2.ID p.2.ServiceMethod p.2.Args ∈ c₁.sent) ∧
      (∀ p ∈ reconClient.subs,
        OutMsg.sub p.2.ID p.2.ServiceMethod p.2.Args ∈ c₁.sent) :=
  ⟨rfl, reconnect_resends reconClient { stopped := false } 5 rfl⟩

/-- C10: for every message, when the transport handle is nil — as it is
after `Close` — `Send` returns the nil-socket error (no panic, no silent
success), and a caller that discards the error (`sendDrop`) is left with
the client state unchanged. -/
theorem send_nil_socket (c : Client) (m : OutMsg) (h : c.ws = none) :
    Send c m = Except.error "Tried to send message on a nil socket" ∧
    sendDrop c m = c := by
  constructor
  · simp [Send, h]
  · exact sendDrop_none c m h

/-- Witness for `send_nil_socket` at the zero client (whose `ws` is nil). -/
theorem send_nil_socket_witness :
    ({} : Client).ws = none ∧
    Send {} (OutMsg.ping "x") =
      Except.error "Tried to send message on a nil socket" ∧
    sendDrop {} (OutMsg.ping "x") = ({} : Client) :=
  ⟨rfl, send_nil_socket {} (OutMsg.ping "x") rfl⟩

/-- C8: `Go` and `Subscribe` with a non-nil unbuffered done channel fail
loudly (`log.Panic`, modelled by `Except.error`) — so nothing is
registered and no state escapes — and with a nil done channel they
allocate a 10-buffered completion channel used as the returned `Call`'s
`Done` sink. -/
theorem go_subscribe_done_contract (c : Client) (serviceMethod subName : String)
    (args : List Val) :
    Go c serviceMethod args (some 0) =
      Except.error "ddp.rpc: done channel is unbuffered" ∧
    Subscribe c subName args (some 0) =
      Except.error "ddp.rpc: done channel is unbuffered" ∧
    (∃ c₁ call, Go c serviceMethod args none = Except.ok (c₁, call) ∧
        call.Done = 10 ∧ 0 < call.Done) ∧
    (∃ c₁ call, Subscribe c subName args none = Except.ok (c₁, call) ∧
        call.Done = 10 ∧ 0 < call.Done) := by
  refine ⟨rfl, rfl, ⟨_, _, rfl, rfl, ?_⟩, ⟨_, _, rfl, rfl, ?_⟩⟩ <;>
    exact Nat.succ_pos 9

/-- C1 (code bug): dispatching `{msg:"nosub", id:"0", error:"denied"}` on a
client whose `SubRegistry` holds id "0" removes the id, but — contrary to
the claim and the spec's `markFailed` — never signals the subscription's
completion sink and drops the `error` field entirely: the whole effect is
the `eraseA`, `doneLog` stays empty, so a synchronous `Sub` blocked on the
done channel can never return error("denied"). -/
theorem nosub_drops_error_silently :
    (lookupA nosubClient.subs "0").isSome = true ∧
    lookupA (inboxStep nosubClient nosubMsg).subs "0" = none ∧
    (inboxStep nosubClient nosubMsg).doneLog = [] ∧
    inboxStep nosubClient nosubMsg =
      { nosubClient with subs := eraseA nosubClient.subs "0" } :=
  ⟨rfl, rfl, rfl, rfl⟩

/-- C2 (code bug): the timer of the ping enrolled at id "a" fires; the
handler (tag 7) is invoked with the timeout error, but the tracker is NOT
removed from the bucket at "a" — `pings["a"]` still holds heap
reference 0 afterwards, contradicting the claim's "the tracker is removed
from the PingRegistry bucket at id". -/
theorem ping_timeout_leaks_tracker :
    lookupA pingClient.pings "a" = some [0] ∧
    (pingTimerFire pingClient 0).pingLog = [(7, some "ping timeout")] ∧
    lookupA (pingTimerFire pingClient 0).pings "a" = some [0] :=
  ⟨rfl, rfl, rfl⟩

/-- C3 (code bug): after the single tracker at id "a" is resolved by a
first pong, a second pong with the same id invokes the same handler
(tag 7) again: the pop of a named bucket that becomes empty is never
written back to the map, so the stale entry re-resolves the same tracker.
The handler fires twice with success, contradicting "never both and never
neither" and the claim's "a second pong ... never invokes the same
handler again". -/
theorem pong_reinvokes_resolved_handler :
    (inboxStep pingClient pongA).pingLog = [(7, none)] ∧
    lookupA (inboxStep pingClient pongA).pings "a" = some [0] ∧
    (inboxStep (inboxStep pingClient pongA) pongA).pingLog =
      [(7, none), (7, none)] :=
  ⟨rfl, rfl, rfl⟩

/-- C6: three anonymous pings (handler tags 0, 1, 2) followed by three
anonymous pongs fire all three handlers with success (`none`), in
enrollment order, and leave the empty-id bucket empty. -/
theorem anon_ping_fifo :
    anonAfter.pingLog = [(0, none), (1, none), (2, none)] ∧
    lookupA anonAfter.pings "" = some [] :=
  ⟨rfl, rfl⟩

end DDP
